import Mathlib

/-!
Verification development for the gossip ingestion and sync-completion
tracking layer of rapid-gossip-sync-server.

The embedding covers the two variants of the tracker found in the sources:

* `RGS.Tracking` — `download_gossip` and `connect_peer` from
  `src/src/tracking.rs` (the current variant): threshold-based caught-up
  predicate (`new_message_count < 20`), stall watchdog keyed on the last
  tick that observed new gossip, completion send via
  `completion_sender.send(()).await.unwrap()` (a failed send panics).

* `RGS.Download` — `download_gossip` from `src/processor/src/download.rs`
  (an earlier iteration of the same design): equality-based caught-up
  predicate, watchdog keyed on the last caught-up transition, completion
  send whose result is discarded.

Machine integers (`u64`) are modelled as `Nat`; the one place where `u64`
subtraction can underflow (the per-tick delta) is tracked explicitly by
`RGS.delta_underflows`. Time (`Instant`) is modelled as a `Nat` count of
seconds supplied to each tick; `Instant::now()` at a tick is the tick's
`now` field. Panics are modelled as `Option.none`.
-/

namespace RGS

/-- The counter record maintained by the gossip router (`GossipCounter`).
All four fields are `u64` tallies, modelled as `Nat`. -/
structure GossipCounter where
  channel_announcements : Nat
  channel_updates : Nat
  channel_announcements_with_mismatched_scripts : Nat
  channel_updates_without_htlc_max_msats : Nat
deriving Repr, DecidableEq

/-- Inputs consumed by one iteration of a tracker loop: the current time
(`Instant::now()` in seconds), the counter snapshot read under the lock,
and whether the downstream completion send would succeed this tick. -/
structure TickInput where
  now : Nat
  counter : GossipCounter
  send_ok : Bool
deriving Repr, DecidableEq

/-- Observable effects of one tracker iteration: whether the
`InitialSyncComplete` completion event was sent downstream, and whether
the stall watchdog warning was logged. -/
structure TickOutput where
  sent_completion : Bool
  stall_warning : Bool
deriving Repr, DecidableEq

/-- `counter.channel_announcements + counter.channel_updates`
(tracking.rs line 117, download.rs line 93). -/
def total_message_count (c : GossipCounter) : Nat :=
  c.channel_announcements + c.channel_updates

/-- Whether the `u64` evaluation of `total - pa - pu` underflows: the
first subtraction underflows when `pa > total`, and the second when the
remainder is smaller than `pu` (tracking.rs line 118, download.rs
line 94). -/
def delta_underflows (total pa pu : Nat) : Bool :=
  decide (total < pa) || decide (total - pa < pu)

namespace Tracking

/-- The tracker loop's local state in `download_gossip`
(src/src/tracking.rs lines 102-107): the previous tick's counter values,
the caught-up flag, and `latest_new_gossip_time` (the time of the most
recent tick that observed new messages, or the loop start time). -/
structure TrackerState where
  previous_announcement_count : Nat
  previous_update_count : Nat
  is_caught_up_with_gossip : Bool
  latest_new_gossip_time : Nat
deriving Repr, DecidableEq

/-- `total_message_count - previous_announcement_count - previous_update_count`
(tracking.rs line 118), as truncated `Nat` subtraction; agreement with the
`u64` value in the non-underflowing case is what claim C10 is about. -/
def new_message_count (c : GossipCounter) (st : TrackerState) : Nat :=
  total_message_count c - st.previous_announcement_count - st.previous_update_count

/-- The caught-up heuristic of tracking.rs line 122:
`new_message_count < 20 && previous_announcement_count > 0 && previous_update_count > 0`. -/
def caught_up_predicate (c : GossipCounter) (st : TrackerState) : Bool :=
  decide (new_message_count c st < 20)
    && decide (0 < st.previous_announcement_count)
    && decide (0 < st.previous_update_count)

/-- The pure part of one iteration of the tracker loop
(src/src/tracking.rs lines 110-158): reads the counter snapshot, computes
the caught-up flag, updates `latest_new_gossip_time` when new messages
were observed, decides whether the persister must be notified (exactly at
a false-to-true caught-up edge, lines 144-146), evaluates the stall
watchdog (lines 151-154, after the `latest_new_gossip_time` update of
lines 123-125), and stores the current counts as the previous counts
(lines 156-157).

`needs_to_notify_persister` is declared outside the loop in the source,
but every iteration that sets it also consumes and resets it at lines
160-163 (or panics there), so it is always false on loop entry and is
modelled as per-tick. -/
def step (st : TrackerState) (inp : TickInput) : TrackerState × TickOutput :=
  let counter := inp.counter
  let was_previously_caught_up_with_gossip := st.is_caught_up_with_gossip
  let is_caught_up_with_gossip := caught_up_predicate counter st
  let latest_new_gossip_time :=
    if 0 < new_message_count counter st then inp.now else st.latest_new_gossip_time
  let needs_to_notify_persister :=
    is_caught_up_with_gossip && !was_previously_caught_up_with_gossip
  let continuous_caught_up_duration := inp.now - latest_new_gossip_time
  let stall_warning := decide (600 < continuous_caught_up_duration)
  ({ previous_announcement_count := counter.channel_announcements,
     previous_update_count := counter.channel_updates,
     is_caught_up_with_gossip := is_caught_up_with_gossip,
     latest_new_gossip_time := latest_new_gossip_time },
   { sent_completion := needs_to_notify_persister, stall_warning := stall_warning })

/-- One full iteration including the downstream send of lines 160-163:
`completion_sender.send(()).await.unwrap()`. When the persister must be
notified and the send fails, the `unwrap` panics (modelled as `none`). -/
def tick (st : TrackerState) (inp : TickInput) : Option (TrackerState × TickOutput) :=
  let r := step st inp
  if r.2.sent_completion && !inp.send_ok then none else some r

/-- The state on loop entry (tracking.rs lines 102-107): zero previous
counts, not caught up, `latest_new_gossip_time` initialised to
`Instant::now()` at startup. -/
def initialState (startTime : Nat) : TrackerState :=
  { previous_announcement_count := 0,
    previous_update_count := 0,
    is_caught_up_with_gossip := false,
    latest_new_gossip_time := startTime }

/-- Runs the tracker loop over a finite prefix of tick inputs, collecting
the per-tick outputs; `none` when some tick panicked. -/
def run : TrackerState → List TickInput → Option (TrackerState × List TickOutput)
  | st, [] => some (st, [])
  | st, inp :: rest =>
    match tick st inp with
    | none => none
    | some r =>
      match run r.1 rest with
      | none => none
      | some p => some (p.1, r.2 :: p.2)

/-- The sequence of values taken by `is_caught_up_with_gossip` after each
tick of a run (the candidate caught-up value computed at that tick). -/
def caughtSequence : TrackerState → List TickInput → List Bool
  | _, [] => []
  | st, inp :: rest => (step st inp).1.is_caught_up_with_gossip :: caughtSequence (step st inp).1 rest

/-- Specification-side edge marking: given the previous level and a
sequence of levels, marks exactly the positions where the level goes from
false to true. -/
def edgeMarks : Bool → List Bool → List Bool
  | _, [] => []
  | prev, b :: rest => (b && !prev) :: edgeMarks b rest

/-- The aggregation loop over first-attempt results (tracking.rs lines
85-94), with the results listed in task-completion order. Join errors are
skipped by the `if let Ok` of line 86 and do not appear in the list. On a
success the counter is incremented and, once it reaches
`CONNECTED_PEER_ASSERTION_LIMIT` (the `limit` parameter here; the
constant lives in the config module, outside these two source files), the
loop breaks without awaiting the remaining peers. Returns the final
`connected_peer_count`. -/
def connect_all_count : Nat → Nat → List Bool → Nat
  | connected_peer_count, _, [] => connected_peer_count
  | connected_peer_count, limit, connection :: rest =>
    if connection then
      if limit ≤ connected_peer_count + 1 then connected_peer_count + 1
      else connect_all_count (connected_peer_count + 1) limit rest
    else connect_all_count connected_peer_count limit rest

/-- Number of first-attempt outcomes the aggregation loop of tracking.rs
lines 85-94 actually awaits (`join_next` results it consumes) before
proceeding, for the same arguments as `connect_all_count`. -/
def connect_all_awaited : Nat → Nat → List Bool → Nat
  | _, _, [] => 0
  | connected_peer_count, limit, connection :: rest =>
    if connection then
      if limit ≤ connected_peer_count + 1 then 1
      else 1 + connect_all_awaited (connected_peer_count + 1) limit rest
    else 1 + connect_all_awaited connected_peer_count limit rest

/-- The startup aggregation outcome (tracking.rs lines 85-98): run the
join loop, then `panic!("Failed to connect to any peer.")` when
`connected_peer_count < 1` (the panic is modelled as `none`). -/
def connect_all (results : List Bool) (limit : Nat) : Option Nat :=
  let connected_peer_count := connect_all_count 0 limit results
  if connected_peer_count < 1 then none else some connected_peer_count

/-- The informational warning of tracking.rs lines 73-75, logged when
`peers.len() <= CONNECTED_PEER_ASSERTION_LIMIT`. -/
def assertion_limit_warning (num_peers limit : Nat) : Bool :=
  decide (num_peers ≤ limit)

/-- The sends performed on the capacity-1 channel by the spawned per-peer
reconnect task of `connect_peer` (tracking.rs lines 170-194), given the
sequence of `connect_outbound` outcomes of its successive iterations
(`true` = connected): the outcome is sent only when `is_first_iteration`
holds, in both the success branch (line 181) and the failure branch
(line 189), and the flag is cleared at the end of every iteration
(line 192). -/
def peer_task_sends : Bool → List Bool → List Bool
  | _, [] => []
  | is_first_iteration, outcome :: rest =>
    (if is_first_iteration then [outcome] else []) ++ peer_task_sends false rest

/-- `connect_peer` (tracking.rs lines 167-198): spawn the reconnect task,
then return `receiver.recv().await.unwrap()` — the first value the task
sends on the channel (`none`, a panic, if the task never sends). -/
def connect_peer (outcomes : List Bool) : Option Bool :=
  (peer_task_sends true outcomes).head?

/-- Combined state for the counter-frame property: the tracker loop's
local state together with the shared `router.counter` behind its
read/write lock. -/
structure SystemState where
  tracker : TrackerState
  counter : GossipCounter
deriving Repr, DecidableEq

/-- Modelled from the spec: the router's write path (`GossipRouter`,
whose source file is not among these two sources) is the only writer of
`GossipCounter` and, per accepted message batch, increments the matching
tallies under the write lock; the four arguments are the increments
applied to the four fields. -/
def router_write (c : GossipCounter) (da du dm dh : Nat) : GossipCounter :=
  { channel_announcements := c.channel_announcements + da,
    channel_updates := c.channel_updates + du,
    channel_announcements_with_mismatched_scripts :=
      c.channel_announcements_with_mismatched_scripts + dm,
    channel_updates_without_htlc_max_msats :=
      c.channel_updates_without_htlc_max_msats + dh }

/-- An event of the combined system: either the router's write path runs,
or the tracker performs one tick (reading the counter under the shared
read lock, tracking.rs lines 115-158). -/
inductive SysEvent where
  | routerWrite (da du dm dh : Nat)
  | trackerTick (now : Nat) (send_ok : Bool)
deriving Repr, DecidableEq

/-- One step of the combined system: a router write updates only the
counter, and a tracker tick reads the counter snapshot and updates only
the tracker's own local state. -/
def sys_step (s : SystemState) : SysEvent → Option SystemState
  | .routerWrite da du dm dh =>
    some { tracker := s.tracker, counter := router_write s.counter da du dm dh }
  | .trackerTick now send_ok =>
    match tick s.tracker { now := now, counter := s.counter, send_ok := send_ok } with
    | none => none
    | some r => some { tracker := r.1, counter := s.counter }

/-- Tick inputs realising the spec's example delta sequence
100, 50, 5, 3, with both previous counts positive from tick 2 onward. -/
def c2ExampleInputs : List TickInput :=
  [ { now := 5,
      counter := { channel_announcements := 60, channel_updates := 40,
                   channel_announcements_with_mismatched_scripts := 0,
                   channel_updates_without_htlc_max_msats := 0 },
      send_ok := true },
    { now := 10,
      counter := { channel_announcements := 90, channel_updates := 60,
                   channel_announcements_with_mismatched_scripts := 0,
                   channel_updates_without_htlc_max_msats := 0 },
      send_ok := true },
    { now := 15,
      counter := { channel_announcements := 92, channel_updates := 63,
                   channel_announcements_with_mismatched_scripts := 0,
                   channel_updates_without_htlc_max_msats := 0 },
      send_ok := true },
    { now := 20,
      counter := { channel_announcements := 94, channel_updates := 64,
                   channel_announcements_with_mismatched_scripts := 0,
                   channel_updates_without_htlc_max_msats := 0 },
      send_ok := true } ]

/-- The counter snapshot seen by every tick of the stall scenario. -/
def c6StallCounter : GossipCounter :=
  { channel_announcements := 5, channel_updates := 7,
    channel_announcements_with_mismatched_scripts := 0,
    channel_updates_without_htlc_max_msats := 0 }

/-- Tick inputs exhibiting a single continuous stall: tick 1 (at time 5)
observes 12 new messages, then no new gossip ever arrives; ticks 2 and 3
run at times 610 and 615, both more than 600 seconds after the last new
gossip. -/
def c6StallInputs : List TickInput :=
  [ { now := 5, counter := c6StallCounter, send_ok := true },
    { now := 610, counter := c6StallCounter, send_ok := true },
    { now := 615, counter := c6StallCounter, send_ok := true } ]

end Tracking

namespace Download

/-- The tracker loop's local state in the earlier iteration
(src/processor/src/download.rs lines 75-80): previous counts, caught-up
flag, and `latest_catch_up_time` — here the time of the most recent
false-to-true caught-up transition (or startup). -/
structure TrackerState where
  previous_announcement_count : Nat
  previous_update_count : Nat
  is_caught_up_with_gossip : Bool
  latest_catch_up_time : Nat
deriving Repr, DecidableEq

/-- The caught-up heuristic of download.rs line 98: both counters exactly
equal to the previous tick's values, and both previous values
positive. -/
def caught_up_predicate (c : GossipCounter) (st : TrackerState) : Bool :=
  decide (c.channel_announcements = st.previous_announcement_count)
    && decide (c.channel_updates = st.previous_update_count)
    && decide (0 < st.previous_announcement_count)
    && decide (0 < st.previous_update_count)

/-- One iteration of the loop of download.rs lines 82-137. The
`persistence_sender.send(...)` of lines 132-135 has its result discarded
(no `unwrap`), so the tick is total: a failed send changes nothing and
the loop continues — `inp.send_ok` is deliberately unused. The watchdog
(lines 121-124) measures time since the last caught-up transition, which
is refreshed on a false-to-true edge (line 114). -/
def tick (st : TrackerState) (inp : TickInput) : TrackerState × TickOutput :=
  let counter := inp.counter
  let was_previously_caught_up_with_gossip := st.is_caught_up_with_gossip
  let is_caught_up_with_gossip := caught_up_predicate counter st
  let needs_to_notify_persister :=
    is_caught_up_with_gossip && !was_previously_caught_up_with_gossip
  let latest_catch_up_time :=
    if needs_to_notify_persister then inp.now else st.latest_catch_up_time
  let continuous_catch_up_duration := inp.now - latest_catch_up_time
  let stall_warning := decide (600 < continuous_catch_up_duration)
  ({ previous_announcement_count := counter.channel_announcements,
     previous_update_count := counter.channel_updates,
     is_caught_up_with_gossip := is_caught_up_with_gossip,
     latest_catch_up_time := latest_catch_up_time },
   { sent_completion := needs_to_notify_persister, stall_warning := stall_warning })

end Download

end RGS

namespace RGS.Tracking

theorem step_sent_eq_edge (st : TrackerState) (inp : TickInput) :
    (step st inp).2.sent_completion
      = ((step st inp).1.is_caught_up_with_gossip && !st.is_caught_up_with_gossip) := rfl

theorem step_state_caught (st : TrackerState) (inp : TickInput) :
    (step st inp).1.is_caught_up_with_gossip = caught_up_predicate inp.counter st := rfl

theorem run_sent_eq_edgeMarks :
    ∀ (inputs : List TickInput) (st stF : TrackerState) (outs : List TickOutput),
      run st inputs = some (stF, outs) →
      outs.map TickOutput.sent_completion
        = edgeMarks st.is_caught_up_with_gossip (caughtSequence st inputs) := by
  intro inputs
  induction inputs with
  | nil =>
    intro st stF outs h
    simp only [run, Option.some.injEq, Prod.mk.injEq] at h
    simp [← h.2, caughtSequence, edgeMarks]
  | cons inp rest ih =>
    intro st stF outs h
    simp only [run] at h
    cases htick : tick st inp with
    | none => rw [htick] at h; exact absurd h (by simp)
    | some r =>
      rw [htick] at h
      dsimp only at h
      cases hrest : run r.1 rest with
      | none => rw [hrest] at h; exact absurd h (by simp)
      | some p =>
        rw [hrest] at h
        simp only [Option.some.injEq, Prod.mk.injEq] at h
        have hr : r = step st inp := by
          simp only [tick] at htick
          by_cases hc : (step st inp).2.sent_completion && !inp.send_ok
          · rw [if_pos hc] at htick; exact absurd htick (by simp)
          · rw [if_neg hc] at htick; exact (Option.some.injEq _ _ ▸ htick).symm
        subst hr
        have IH := ih (step st inp).1 p.1 p.2 (by rw [hrest])
        simp only [← h.2, List.map_cons, caughtSequence, edgeMarks]
        rw [IH, step_sent_eq_edge]

theorem tick_some_eq (st : TrackerState) (inp : TickInput) (r : TrackerState × TickOutput)
    (h : tick st inp = some r) : r = step st inp := by
  simp only [tick] at h
  by_cases hc : (step st inp).2.sent_completion && !inp.send_ok
  · rw [if_pos hc] at h; cases h
  · rw [if_neg hc] at h
    injection h with h2
    exact h2.symm

theorem step_warn_eq (st : TrackerState) (inp : TickInput) :
    (step st inp).2.stall_warning
      = decide (600 < inp.now - (step st inp).1.latest_new_gossip_time) := rfl

theorem peer_task_sends_false : ∀ (outcomes : List Bool), peer_task_sends false outcomes = [] := by
  intro outcomes
  induction outcomes with
  | nil => rfl
  | cons o rest ih => simp [peer_task_sends, ih]

theorem connect_all_count_zero_success :
    ∀ (results : List Bool) (k limit : Nat), results.count true = 0 →
      connect_all_count k limit results = k := by
  intro results
  induction results with
  | nil => intro k limit _; rfl
  | cons b rest ih =>
    intro k limit h
    cases b with
    | false =>
      simp [List.count_cons] at h
      simp only [connect_all_count, if_false, Bool.false_eq_true]
      exact ih k limit (by omega)
    | true => simp [List.count_cons] at h

theorem connect_all_count_one_success :
    ∀ (results : List Bool) (k limit : Nat), results.count true = 1 →
      connect_all_count k limit results = k + 1 := by
  intro results
  induction results with
  | nil => intro k limit h; simp [List.count_nil] at h
  | cons b rest ih =>
    intro k limit h
    cases b with
    | false =>
      simp [List.count_cons] at h
      simp only [connect_all_count, Bool.false_eq_true, if_false]
      exact ih k limit (by omega)
    | true =>
      simp [List.count_cons] at h
      have hz : rest.count true = 0 := by omega
      by_cases hl : limit ≤ k + 1
      · simp [connect_all_count, hl]
      · simp [connect_all_count, hl, connect_all_count_zero_success rest (k + 1) limit hz]

theorem connect_all_count_le :
    ∀ (results : List Bool) (k limit : Nat), k ≤ connect_all_count k limit results := by
  intro results
  induction results with
  | nil => intro k limit; exact Nat.le_refl k
  | cons b rest ih =>
    intro k limit
    cases b with
    | false => simpa [connect_all_count] using ih k limit
    | true =>
      by_cases hl : limit ≤ k + 1
      · simp [connect_all_count, hl]
      · simp only [connect_all_count, hl, if_true, if_false]
        exact Nat.le_trans (Nat.le_succ k) (ih (k + 1) limit)

theorem connect_all_count_pos :
    ∀ (results : List Bool) (k limit : Nat), 0 < results.count true →
      0 < connect_all_count k limit results := by
  intro results
  induction results with
  | nil => intro k limit h; simp [List.count_nil] at h
  | cons b rest ih =>
    intro k limit h
    cases b with
    | false =>
      simp only [connect_all_count, Bool.false_eq_true, if_false]
      refine ih k limit ?_
      simpa [List.count_cons] using h
    | true =>
      by_cases hl : limit ≤ k + 1
      · simp [connect_all_count, hl]
      · simp only [connect_all_count, hl, if_true, if_false]
        exact Nat.lt_of_lt_of_le (Nat.succ_pos k) (connect_all_count_le rest (k + 1) limit)

theorem connect_all_awaited_all :
    ∀ (results : List Bool) (k limit : Nat), k + results.count true < limit →
      connect_all_awaited k limit results = results.length := by
  intro results
  induction results with
  | nil => intro k limit _; rfl
  | cons b rest ih =>
    intro k limit h
    cases b with
    | false =>
      simp [List.count_cons] at h
      simp only [connect_all_awaited, Bool.false_eq_true, if_false, List.length_cons]
      rw [ih k limit (by omega)]
      omega
    | true =>
      simp [List.count_cons] at h
      have hl : ¬ limit ≤ k + 1 := by omega
      simp only [connect_all_awaited, hl, if_true, if_false, List.length_cons]
      rw [ih (k + 1) limit (by omega)]
      omega

theorem sys_step_trackerTick_counter (s s2 : SystemState) (now : Nat) (send_ok : Bool)
    (h : sys_step s (SysEvent.trackerTick now send_ok) = some s2) :
    s2.counter = s.counter := by
  simp only [sys_step] at h
  cases htick : tick s.tracker { now := now, counter := s.counter, send_ok := send_ok } with
  | none => rw [htick] at h; cases h
  | some r =>
    rw [htick] at h
    dsimp only at h
    injection h with h2
    rw [← h2]

end RGS.Tracking

namespace RGS

theorem download_sent_eq_edge (st : Download.TrackerState) (inp : TickInput) :
    (Download.tick st inp).2.sent_completion
      = ((Download.tick st inp).1.is_caught_up_with_gossip && !st.is_caught_up_with_gossip) := rfl

/-- C1: over every panic-free run of the tracker loop of
`download_gossip` (src/src/tracking.rs), the `InitialSyncComplete`
completion event is sent exactly at the ticks where the caught-up flag
has a false-to-true edge relative to the previous tick (or to the initial
value): `edgeMarks` marks precisely those positions, so consecutive
caught-up ticks send nothing after the first, and a true-to-false
transition sends nothing. The second conjunct states the same
edge-triggering for one tick of the earlier download.rs iteration. -/
theorem c1_completion_edge_triggered :
    (∀ (st stF : Tracking.TrackerState) (inputs : List TickInput) (outs : List TickOutput),
        Tracking.run st inputs = some (stF, outs) →
        outs.map TickOutput.sent_completion
          = Tracking.edgeMarks st.is_caught_up_with_gossip (Tracking.caughtSequence st inputs))
    ∧ (∀ (st : Download.TrackerState) (inp : TickInput),
        (Download.tick st inp).2.sent_completion
          = ((Download.tick st inp).1.is_caught_up_with_gossip
              && !st.is_caught_up_with_gossip)) :=
  ⟨fun st stF inputs outs h => Tracking.run_sent_eq_edgeMarks inputs st stF outs h,
   download_sent_eq_edge⟩

theorem c1_completion_edge_triggered_witness :
    List.map TickOutput.sent_completion
        [⟨false, false⟩, ⟨false, false⟩, ⟨true, false⟩, ⟨false, false⟩]
      = Tracking.edgeMarks (Tracking.initialState 0).is_caught_up_with_gossip
          (Tracking.caughtSequence (Tracking.initialState 0) Tracking.c2ExampleInputs) :=
  c1_completion_edge_triggered.1 (Tracking.initialState 0)
    ⟨94, 64, true, 20⟩ Tracking.c2ExampleInputs
    [⟨false, false⟩, ⟨false, false⟩, ⟨true, false⟩, ⟨false, false⟩] (by decide)

/-- C2: on every tick whose delta computation does not underflow (which
the monotonicity of the counters guarantees), the candidate caught-up
value of tracking.rs line 122 is true iff the number of new messages
since the previous tick (current announcements plus updates minus the
previous totals) is below 20 and both previous counts are positive. The
second conjunct checks the spec's example: deltas 100, 50, 5, 3 produce
exactly one completion event, at tick 3. -/
theorem c2_caught_up_threshold :
    (∀ (c : GossipCounter) (st : Tracking.TrackerState),
        st.previous_announcement_count + st.previous_update_count ≤ total_message_count c →
        (Tracking.caught_up_predicate c st = true ↔
          ((c.channel_announcements : Int) + (c.channel_updates : Int)
              - (st.previous_announcement_count : Int) - (st.previous_update_count : Int) < 20
            ∧ 0 < st.previous_announcement_count ∧ 0 < st.previous_update_count)))
    ∧ (Tracking.run (Tracking.initialState 0) Tracking.c2ExampleInputs).map
        (fun p => p.2.map TickOutput.sent_completion) = some [false, false, true, false] := by
  constructor
  · intro c st h
    simp only [Tracking.caught_up_predicate, Bool.and_eq_true, decide_eq_true_eq]
    constructor
    · rintro ⟨⟨h1, h2⟩, h3⟩
      refine ⟨?_, h2, h3⟩
      simp only [Tracking.new_message_count, total_message_count] at h1 h ⊢
      omega
    · rintro ⟨h1, h2, h3⟩
      refine ⟨⟨?_, h2⟩, h3⟩
      simp only [Tracking.new_message_count, total_message_count] at h1 h ⊢
      omega
  · rfl

theorem c2_caught_up_threshold_witness :
    Tracking.caught_up_predicate ⟨92, 63, 0, 0⟩ ⟨90, 60, false, 10⟩ = true ↔
      (((92 : Nat) : Int) + ((63 : Nat) : Int) - ((90 : Nat) : Int) - ((60 : Nat) : Int) < 20
        ∧ 0 < (90 : Nat) ∧ 0 < (60 : Nat)) :=
  c2_caught_up_threshold.1 ⟨92, 63, 0, 0⟩ ⟨90, 60, false, 10⟩ (by decide)

/-- C3: whenever the stored previous announcement count or previous
update count is zero, the caught-up heuristic evaluates to false
regardless of the delta — in both variants — and in particular the first
tick after startup (previous counts both zero) never sends a completion
event. -/
theorem c3_cold_start_guard :
    (∀ (c : GossipCounter) (st : Tracking.TrackerState),
        st.previous_announcement_count = 0 ∨ st.previous_update_count = 0 →
        Tracking.caught_up_predicate c st = false)
    ∧ (∀ (t0 : Nat) (inp : TickInput),
        (Tracking.tick (Tracking.initialState t0) inp).map (fun r => r.2.sent_completion)
          = some false)
    ∧ (∀ (c : GossipCounter) (st : Download.TrackerState),
        st.previous_announcement_count = 0 ∨ st.previous_update_count = 0 →
        Download.caught_up_predicate c st = false) := by
  refine ⟨?_, ?_, ?_⟩
  · intro c st h
    rcases h with h | h <;> simp [Tracking.caught_up_predicate, h]
  · intro t0 inp
    have h0 : Tracking.caught_up_predicate inp.counter (Tracking.initialState t0) = false := by
      simp [Tracking.caught_up_predicate, Tracking.initialState]
    simp [Tracking.tick, Tracking.step, h0]
  · intro c st h
    rcases h with h | h <;> simp [Download.caught_up_predicate, h]

theorem c3_cold_start_guard_witness :
    Tracking.caught_up_predicate ⟨5, 5, 0, 0⟩ ⟨0, 3, false, 0⟩ = false ∧
      Download.caught_up_predicate ⟨5, 5, 0, 0⟩ ⟨4, 0, false, 0⟩ = false :=
  ⟨c3_cold_start_guard.1 ⟨5, 5, 0, 0⟩ ⟨0, 3, false, 0⟩ (Or.inl rfl),
   c3_cold_start_guard.2.2 ⟨5, 5, 0, 0⟩ ⟨4, 0, false, 0⟩ (Or.inr rfl)⟩

/-- C4: when every configured peer's first connection attempt fails, the
aggregation of tracking.rs lines 85-98 panics
(`Failed to connect to any peer.`, modelled as `none`); when exactly one
first attempt succeeds, it proceeds with `connected_peer_count = 1` and
does not abort — for every value of the assertion threshold. -/
theorem c4_connect_all_zero_fatal_one_proceeds :
    (∀ (results : List Bool) (limit : Nat), results.count true = 0 →
        Tracking.connect_all results limit = none)
    ∧ (∀ (results : List Bool) (limit : Nat), results.count true = 1 →
        Tracking.connect_all results limit = some 1) := by
  constructor
  · intro results limit h
    simp [Tracking.connect_all, Tracking.connect_all_count_zero_success results 0 limit h]
  · intro results limit h
    simp [Tracking.connect_all, Tracking.connect_all_count_one_success results 0 limit h]

theorem c4_connect_all_zero_fatal_one_proceeds_witness :
    Tracking.connect_all [false, false, false] 10 = none ∧
      Tracking.connect_all [false, true, false] 10 = some 1 :=
  ⟨c4_connect_all_zero_fatal_one_proceeds.1 [false, false, false] 10 (by decide),
   c4_connect_all_zero_fatal_one_proceeds.2 [false, true, false] 10 (by decide)⟩

/-- C5 counterexample: with assertion threshold 2 and three configured
peers whose first attempts all succeed (listed in completion order), the
aggregation loop of tracking.rs lines 85-94 awaits only 2 of the 3
first-attempt outcomes: the `break` at lines 89-91 stops the wait once
`connected_peer_count` reaches the threshold, so the threshold does
change which peers are awaited, contrary to the claim. -/
theorem c5_counterexample :
    Tracking.connect_all_awaited 0 2 [true, true, true] ≠ [true, true, true].length := by
  decide

/-- C5 as amended: the aggregation awaits every configured peer's
first-attempt outcome only as long as the success count stays below the
assertion threshold (first conjunct: with fewer successes than the
threshold, all outcomes are awaited); reaching the threshold stops the
wait early but never aborts startup — any outcome list with at least one
success proceeds (second conjunct); the informational warning fires
exactly when the configured peer list is not larger than the threshold
(third conjunct, the `<=` of tracking.rs line 73). -/
theorem c5_threshold_scope :
    (∀ (results : List Bool) (limit : Nat), results.count true < limit →
        Tracking.connect_all_awaited 0 limit results = results.length)
    ∧ (∀ (results : List Bool) (limit : Nat), 0 < results.count true →
        Tracking.connect_all results limit ≠ none)
    ∧ (∀ (num_peers limit : Nat),
        Tracking.assertion_limit_warning num_peers limit = true ↔ num_peers ≤ limit) := by
  refine ⟨?_, ?_, ?_⟩
  · intro results limit h
    exact Tracking.connect_all_awaited_all results 0 limit (by omega)
  · intro results limit h
    have hpos := Tracking.connect_all_count_pos results 0 limit h
    simp only [Tracking.connect_all]
    rw [if_neg (by omega)]
    simp
  · intro num_peers limit
    simp [Tracking.assertion_limit_warning]

theorem c5_threshold_scope_witness :
    Tracking.connect_all_awaited 0 5 [true, false] = [true, false].length ∧
      Tracking.connect_all [true] 3 ≠ none :=
  ⟨c5_threshold_scope.1 [true, false] 5 (by decide),
   c5_threshold_scope.2.1 [true] 3 (by decide)⟩

/-- C6 counterexample: a single continuous stall produces one watchdog
warning per tick past the window, not one per stall period. In the run
below the last new gossip arrives at tick 1 (time 5); ticks 2 and 3
(times 610 and 615) both observe a zero delta — one continuous stall —
yet both log the warning (second component of the last two outputs). The
remaining conjuncts confirm that ticks 2 and 3 observe no new messages
from their respective pre-states. -/
theorem c6_counterexample :
    Tracking.run (Tracking.initialState 0) Tracking.c6StallInputs
      = some (⟨5, 7, true, 5⟩, [⟨false, false⟩, ⟨true, true⟩, ⟨false, true⟩])
    ∧ Tracking.new_message_count Tracking.c6StallCounter ⟨5, 7, false, 5⟩ = 0
    ∧ Tracking.new_message_count Tracking.c6StallCounter ⟨5, 7, true, 5⟩ = 0 := by
  decide

/-- C6 as amended: the stall watchdog of tracking.rs lines 151-154 is
level-triggered per tick: a tick warns iff more than 600 seconds have
elapsed since the most recent tick that observed new messages (the
`latest_new_gossip_time` the tick stores), so during a continuous stall
every tick past the window warns; and a tick that itself observes new
messages never warns. -/
theorem c6_stall_warning_per_tick :
    (∀ (st st2 : Tracking.TrackerState) (inp : TickInput) (out : TickOutput),
        Tracking.tick st inp = some (st2, out) →
        (out.stall_warning = true ↔ 600 < inp.now - st2.latest_new_gossip_time))
    ∧ (∀ (st st2 : Tracking.TrackerState) (inp : TickInput) (out : TickOutput),
        Tracking.tick st inp = some (st2, out) →
        0 < Tracking.new_message_count inp.counter st →
        out.stall_warning = false) := by
  constructor
  · intro st st2 inp out h
    have h2 := Tracking.tick_some_eq st inp (st2, out) h
    have hst : st2 = (Tracking.step st inp).1 := congrArg Prod.fst h2
    have hout : out = (Tracking.step st inp).2 := congrArg Prod.snd h2
    rw [hst, hout, Tracking.step_warn_eq]
    simp
  · intro st st2 inp out h hdelta
    have h2 := Tracking.tick_some_eq st inp (st2, out) h
    have hout : out = (Tracking.step st inp).2 := congrArg Prod.snd h2
    have hlatest : (Tracking.step st inp).1.latest_new_gossip_time = inp.now := by
      simp [Tracking.step, hdelta]
    rw [hout, Tracking.step_warn_eq, hlatest]
    simp

theorem c6_stall_warning_per_tick_witness :
    ((⟨false, true⟩ : TickOutput).stall_warning = true ↔ 600 < 615 - 5) ∧
      (⟨false, false⟩ : TickOutput).stall_warning = false :=
  ⟨c6_stall_warning_per_tick.1 ⟨5, 7, true, 5⟩ ⟨5, 7, true, 5⟩
      { now := 615, counter := Tracking.c6StallCounter, send_ok := true }
      ⟨false, true⟩ (by decide),
   c6_stall_warning_per_tick.2 (Tracking.initialState 0) ⟨5, 7, false, 700⟩
      { now := 700, counter := Tracking.c6StallCounter, send_ok := true }
      ⟨false, false⟩ (by decide) (by decide)⟩

/-- C7: for every nonempty sequence of iteration outcomes of the spawned
reconnect task, `connect_peer` returns to its caller exactly the first
iteration's outcome, and over the task's whole lifetime the
first-attempt signal is the only value ever sent on the channel: no
later iteration, successful or not, sends again. -/
theorem c7_first_attempt_signal_only (outcome : Bool) (rest : List Bool) :
    Tracking.connect_peer (outcome :: rest) = some outcome
      ∧ Tracking.peer_task_sends true (outcome :: rest) = [outcome] := by
  have h : Tracking.peer_task_sends true (outcome :: rest) = [outcome] := by
    simp [Tracking.peer_task_sends, Tracking.peer_task_sends_false]
  exact ⟨by simp [Tracking.connect_peer, h], h⟩

/-- C8 counterexample: in the tracking.rs variant a failed downstream
send of the completion event is fatal, not non-fatal: at a false-to-true
caught-up edge with a failing `completion_sender`, the
`send(()).await.unwrap()` of line 162 panics and the loop terminates
(modelled as `none`), contradicting the claim that the tracker does not
terminate. -/
theorem c8_counterexample :
    Tracking.tick ⟨5, 7, false, 0⟩
      { now := 10, counter := ⟨6, 8, 0, 0⟩, send_ok := false } = none := by
  decide

/-- C8 as amended: neither variant retries a failed completion send
within the tick. In the tracking.rs variant a failed send at a
completion tick panics and terminates the loop (first conjunct); in the
download.rs variant the send result is discarded, so the tick's state
and output are identical whether the send succeeds or fails (second
conjunct) and the loop continues, a fresh completion signal arising only
at a later false-to-true edge of the caught-up flag (third conjunct). -/
theorem c8_send_failure_semantics :
    (∀ (st : Tracking.TrackerState) (inp : TickInput),
        (Tracking.step st inp).2.sent_completion = true → inp.send_ok = false →
        Tracking.tick st inp = none)
    ∧ (∀ (st : Download.TrackerState) (now : Nat) (c : GossipCounter),
        Download.tick st { now := now, counter := c, send_ok := true }
          = Download.tick st { now := now, counter := c, send_ok := false })
    ∧ (∀ (st : Download.TrackerState) (inp : TickInput),
        (Download.tick st inp).2.sent_completion
          = ((Download.tick st inp).1.is_caught_up_with_gossip
              && !st.is_caught_up_with_gossip)) := by
  refine ⟨?_, ?_, ?_⟩
  · intro st inp h1 h2
    simp [Tracking.tick, h1, h2]
  · intro st now c
    rfl
  · intro st inp
    exact download_sent_eq_edge st inp

theorem c8_send_failure_semantics_witness :
    Tracking.tick ⟨1, 1, false, 0⟩
      { now := 3, counter := ⟨1, 2, 0, 0⟩, send_ok := false } = none :=
  c8_send_failure_semantics.1 ⟨1, 1, false, 0⟩
    { now := 3, counter := ⟨1, 2, 0, 0⟩, send_ok := false } (by decide) rfl

/-- C9: across a tracker tick of the combined system the counter is left
unchanged — the tracker reads the snapshot under the shared read lock
and mutates only its own local state (first conjunct) — so any step that
changes the counter between two snapshots is a write by the router's
write path (second conjunct). -/
theorem c9_counter_frame :
    (∀ (s s2 : Tracking.SystemState) (now : Nat) (send_ok : Bool),
        Tracking.sys_step s (Tracking.SysEvent.trackerTick now send_ok) = some s2 →
        s2.counter = s.counter)
    ∧ (∀ (s s2 : Tracking.SystemState) (ev : Tracking.SysEvent),
        Tracking.sys_step s ev = some s2 → s2.counter ≠ s.counter →
        ∃ da du dm dh, ev = Tracking.SysEvent.routerWrite da du dm dh) := by
  constructor
  · exact Tracking.sys_step_trackerTick_counter
  · intro s s2 ev h hne
    cases ev with
    | routerWrite da du dm dh => exact ⟨da, du, dm, dh, rfl⟩
    | trackerTick now send_ok =>
      exact absurd (Tracking.sys_step_trackerTick_counter s s2 now send_ok h) hne

theorem c9_counter_frame_witness :
    (Tracking.SystemState.mk ⟨1, 2, false, 5⟩ ⟨1, 2, 0, 0⟩).counter
      = (Tracking.SystemState.mk ⟨0, 0, false, 0⟩ ⟨1, 2, 0, 0⟩).counter :=
  c9_counter_frame.1 ⟨⟨0, 0, false, 0⟩, ⟨1, 2, 0, 0⟩⟩ ⟨⟨1, 2, false, 5⟩, ⟨1, 2, 0, 0⟩⟩
    5 true (by decide)

/-- C10: under counter monotonicity — the snapshot's announcement and
update counts are at least the previous tick's stored values — the `u64`
delta computation `total_message_count - previous_announcement_count -
previous_update_count` (tracking.rs line 118, download.rs line 94) never
underflows, and the truncated result is exact: adding the subtrahends
back recovers the total, so the computation can neither panic nor
wrap. -/
theorem c10_delta_no_underflow (c : GossipCounter) (pa pu : Nat)
    (h1 : pa ≤ c.channel_announcements) (h2 : pu ≤ c.channel_updates) :
    delta_underflows (total_message_count c) pa pu = false
      ∧ (total_message_count c - pa - pu) + pu + pa = total_message_count c := by
  constructor
  · simp only [delta_underflows, total_message_count, Bool.or_eq_false_iff,
      decide_eq_false_iff_not, Nat.not_lt]
    omega
  · simp only [total_message_count]
    omega

theorem c10_delta_no_underflow_witness :
    delta_underflows (total_message_count ⟨10, 20, 0, 0⟩) 5 7 = false
      ∧ (total_message_count ⟨10, 20, 0, 0⟩ - 5 - 7) + 7 + 5
          = total_message_count ⟨10, 20, 0, 0⟩ :=
  c10_delta_no_underflow ⟨10, 20, 0, 0⟩ 5 7 (by decide) (by decide)

end RGS
